import Mathlib

/-!
# File Scanner API — verification of the specification against the code

Shallow embedding of the `file-scanner-api` repository (FastAPI upload
service, content-addressed storage, Redis-stream worker, tiered cleanup).

Machine integers are modelled as `Nat` with explicit reduction `% 2^32`
where the source (SHA-256 arithmetic) overflows.  File contents are
`List Nat` (byte values).  Stateful services (storage directory, Postgres
jobs table, Redis cache, Redis stream) are explicit state records threaded
through the operations, and fallible operations return sum types.
-/

set_option autoImplicit false

namespace FileScanner

/-! ## SHA-256 (model of Python's `hashlib.sha256(...).hexdigest()`)

`storage.calculate_hash_and_save` and `_verify_file_integrity` hash byte
streams with SHA-256 and compare lowercase hex digests.  We implement the
full FIPS 180-4 algorithm over `Nat`, reducing modulo `2^32`. -/

def M32 : Nat := 4294967296

/-- Rotate a 32-bit word (a `Nat < 2^32`) right by `n` bits. -/
def rotr32 (n x : Nat) : Nat :=
  ((x >>> n) ||| ((x % (2 ^ n)) <<< (32 - n))) % M32

def smallSigma0 (x : Nat) : Nat := (rotr32 7 x) ^^^ (rotr32 18 x) ^^^ (x >>> 3)

def smallSigma1 (x : Nat) : Nat := (rotr32 17 x) ^^^ (rotr32 19 x) ^^^ (x >>> 10)

def bigSigma0 (x : Nat) : Nat := (rotr32 2 x) ^^^ (rotr32 13 x) ^^^ (rotr32 22 x)

def bigSigma1 (x : Nat) : Nat := (rotr32 6 x) ^^^ (rotr32 11 x) ^^^ (rotr32 25 x)

/-- `Ch(x,y,z)`; `NOT x` in 32 bits is `x XOR 0xffffffff`. -/
def chFn (x y z : Nat) : Nat := (x &&& y) ^^^ ((x ^^^ 0xffffffff) &&& z)

def majFn (x y z : Nat) : Nat := (x &&& y) ^^^ (x &&& z) ^^^ (y &&& z)

/-- The 64 SHA-256 round constants (decimal). -/
def sha256K : List Nat :=
  [1116352408, 1899447441, 3049323471, 3921009573, 961987163, 1508970993,
   2453635748, 2870763221, 3624381080, 310598401, 607225278, 1426881987,
   1925078388, 2162078206, 2614888103, 3248222580, 3835390401, 4022224774,
   264347078, 604807628, 770255983, 1249150122, 1555081692, 1996064986,
   2554220882, 2821834349, 2952996808, 3210313671, 3336571891, 3584528711,
   113926993, 338241895, 666307205, 773529912, 1294757372, 1396182291,
   1695183700, 1986661051, 2177026350, 2456956037, 2730485921, 2820302411,
   3259730800, 3345764771, 3516065817, 3600352804, 4094571909, 275423344,
   430227734, 506948616, 659060556, 883997877, 958139571, 1322822218,
   1537002063, 1747873779, 1955562222, 2024104815, 2227730452, 2361852424,
   2428436474, 2756734187, 3204031479, 3329325298]

/-- The SHA-256 initial hash value (decimal). -/
def sha256H0 : List Nat :=
  [1779033703, 3144134277, 1013904242, 2773480762,
   1359893119, 2600822924, 528734635, 1541459225]

/-- Pad a byte message: append `0x80`, zeros to 56 mod 64, then the
64-bit big-endian bit length. -/
def sha256Pad (msg : List Nat) : List Nat :=
  let len := msg.length
  let bitLen := 8 * len
  let padZeros := (55 + 64 - len % 64) % 64
  msg ++ [0x80] ++ List.replicate padZeros 0 ++
    [(bitLen >>> 56) % 256, (bitLen >>> 48) % 256, (bitLen >>> 40) % 256,
     (bitLen >>> 32) % 256, (bitLen >>> 24) % 256, (bitLen >>> 16) % 256,
     (bitLen >>> 8) % 256, bitLen % 256]

/-- Group bytes into big-endian 32-bit words. -/
def bytesToWords : List Nat → List Nat
  | a :: b :: c :: d :: rest => (((a * 256 + b) * 256 + c) * 256 + d) :: bytesToWords rest
  | _ => []

/-- Split a byte list into 64-byte blocks: `cur` is the current block
(reversed) and `k` the remaining capacity of the current block. -/
def chunks64Go : List Nat → List Nat → Nat → List (List Nat)
  | [], cur, _ => if cur.isEmpty then [] else [cur.reverse]
  | b :: rest, cur, 0 => cur.reverse :: chunks64Go rest [b] 63
  | b :: rest, cur, k + 1 => chunks64Go rest (b :: cur) k

/-- Split a byte list into 64-byte blocks. -/
def chunks64 (l : List Nat) : List (List Nat) := chunks64Go l [] 64

/-- Extend a 16-word block with `k` further schedule words. -/
def extendSchedule (w : List Nat) : Nat → List Nat
  | 0 => w
  | k + 1 =>
      let prev := extendSchedule w k
      let i := prev.length
      prev ++ [(smallSigma1 (prev.getD (i - 2) 0) + prev.getD (i - 7) 0 +
                smallSigma0 (prev.getD (i - 15) 0) + prev.getD (i - 16) 0) % M32]

/-- The eight 32-bit working variables of the compression function. -/
structure Hash8 where
  a : Nat
  b : Nat
  c : Nat
  d : Nat
  e : Nat
  f : Nat
  g : Nat
  h : Nat

/-- One SHA-256 compression round; `kw` is the pair (round constant, schedule word). -/
def sha256Round (st : Hash8) (kw : Nat × Nat) : Hash8 :=
  let t1 := (st.h + bigSigma1 st.e + chFn st.e st.f st.g + kw.1 + kw.2) % M32
  let t2 := (bigSigma0 st.a + majFn st.a st.b st.c) % M32
  ⟨(t1 + t2) % M32, st.a, st.b, st.c, (st.d + t1) % M32, st.e, st.f, st.g⟩

/-- Compress one 64-byte block into the running 8-word state. -/
def sha256Compress (st : List Nat) (block : List Nat) : List Nat :=
  let w := extendSchedule (bytesToWords block) 48
  let s0 : Hash8 :=
    ⟨st.getD 0 0, st.getD 1 0, st.getD 2 0, st.getD 3 0,
     st.getD 4 0, st.getD 5 0, st.getD 6 0, st.getD 7 0⟩
  let fin := (sha256K.zip w).foldl sha256Round s0
  [(st.getD 0 0 + fin.a) % M32, (st.getD 1 0 + fin.b) % M32,
   (st.getD 2 0 + fin.c) % M32, (st.getD 3 0 + fin.d) % M32,
   (st.getD 4 0 + fin.e) % M32, (st.getD 5 0 + fin.f) % M32,
   (st.getD 6 0 + fin.g) % M32, (st.getD 7 0 + fin.h) % M32]

/-- SHA-256 digest of a byte message, as eight 32-bit words. -/
def sha256Words (msg : List Nat) : List Nat :=
  (chunks64 (sha256Pad msg)).foldl sha256Compress sha256H0

/-- Lowercase hex digit. -/
def hexChar (n : Nat) : Char :=
  if n < 10 then Char.ofNat (48 + n) else Char.ofNat (87 + n)

/-- A 32-bit word as 8 lowercase hex characters. -/
def wordToHex (w : Nat) : List Char :=
  [hexChar ((w >>> 28) % 16), hexChar ((w >>> 24) % 16),
   hexChar ((w >>> 20) % 16), hexChar ((w >>> 16) % 16),
   hexChar ((w >>> 12) % 16), hexChar ((w >>> 8) % 16),
   hexChar ((w >>> 4) % 16), hexChar (w % 16)]

/-- Model of `hashlib.sha256(bytes).hexdigest()`: the 64-character
lowercase hex digest of a byte message. -/
def sha256hex (msg : List Nat) : String :=
  String.mk ((sha256Words msg).foldr (fun w acc => wordToHex w ++ acc) [])

/-- Byte values of an ASCII string (model of `str.encode()` for ASCII input). -/
def strBytes (s : String) : List Nat := s.data.map Char.toNat

/-! ## Configuration (`app/config.py`)

`Settings` carries the fields the modelled operations read.  Disk-usage
percentages and thresholds are rationals (`percent_used` is a Python float
computed as `used / total * 100`; the claims only compare it against the
integer thresholds, for which `ℚ` is exact). -/

structure Settings where
  file_storage_path : String
  max_file_size_mb : Nat
  storage_warning_threshold : ℚ
  storage_critical_threshold : ℚ
  storage_emergency_threshold : ℚ
  job_cache_ttl : Nat
  file_cache_ttl : Nat
  max_upload_size : Nat
  file_retention_days : Nat
  cleanup_orphaned_files_hours : Nat
  upload_timeout_seconds : Nat

/-- The default values of `Settings` in `app/config.py`. -/
def defaultSettings : Settings where
  file_storage_path := "/tmp/file_scanner_data/files"
  max_file_size_mb := 100
  storage_warning_threshold := 85
  storage_critical_threshold := 90
  storage_emergency_threshold := 95
  job_cache_ttl := 3600
  file_cache_ttl := 86400
  max_upload_size := 104857600
  file_retention_days := 7
  cleanup_orphaned_files_hours := 1
  upload_timeout_seconds := 300

/-! ## Storage engine (`app/storage.py`)

The directory tree is a `StorageState`: committed canonical files (keyed
by their hex digest, holding their bytes) and temporary files (name and
mtime, in hours; their bytes are never read back through the state).
Time is measured in hours since an arbitrary epoch throughout the model. -/

structure StorageState where
  committed : List (String × List Nat)
  temps : List (String × Nat)
deriving DecidableEq

/-- `StorageService._get_file_path`: `base/{hash[0:2]}/{hash[2:4]}/{hash}`. -/
def get_file_path (s : Settings) (file_hash : String) : String :=
  s.file_storage_path ++ "/" ++ file_hash.take 2 ++ "/" ++
    (file_hash.drop 2).take 2 ++ "/" ++ file_hash

/-- `final_path.exists()` for a canonical content-addressed location. -/
def storage_contains (st : StorageState) (file_hash : String) : Bool :=
  st.committed.any (fun p => p.1 == file_hash)

/-- Bytes committed at the canonical location for a digest, if any. -/
def storage_read (st : StorageState) (file_hash : String) : Option (List Nat) :=
  (st.committed.find? (fun p => p.1 == file_hash)).map (fun p => p.2)

inductive SaveResult where
  /-- The `(file_hash, file_size, file_path)` tuple returned on success. -/
  | ok (file_hash : String) (file_size : Nat) (file_path : String)
  /-- The `IOError("File corruption detected during upload")` raised by
  `_verify_file_integrity`. -/
  | corruptionError
deriving DecidableEq

/-- `StorageService.calculate_hash_and_save`.

`content` is the byte stream read from the upload (hashed incrementally:
the streaming digest is `sha256hex content`); `written` is what actually
landed in the temporary file (equal to `content` unless the write was
corrupted by a crash or disk error).  `_verify_file_integrity` re-reads
the temporary file, so the recomputed digest is `sha256hex written`.
Mirrors the source: write temp; if the canonical path already exists,
unlink the temp and return early (storage-level dedup); otherwise verify,
and either move the temp to the canonical path or (on digest mismatch)
unlink the temp and raise.  The timeout branch is real-time behaviour and
is outside this deterministic model. -/
def calculate_hash_and_save (s : Settings) (st : StorageState)
    (content written : List Nat) (temp_name : String) (now : Nat) :
    SaveResult × StorageState :=
  let file_hash := sha256hex content
  let final_path := get_file_path s file_hash
  let st1 : StorageState := { st with temps := (temp_name, now) :: st.temps }
  if storage_contains st1 file_hash then
    (SaveResult.ok file_hash content.length final_path, { st1 with temps := st.temps })
  else if sha256hex written = file_hash then
    (SaveResult.ok file_hash content.length final_path,
     { committed := (file_hash, written) :: st.committed, temps := st.temps })
  else
    (SaveResult.corruptionError, { st1 with temps := st.temps })

/-- `StorageService.delete_file`: unlink the canonical file if present. -/
def delete_file (st : StorageState) (file_hash : String) : StorageState × Bool :=
  if storage_contains st file_hash then
    ({ st with committed := st.committed.filter (fun p => ¬ p.1 == file_hash) }, true)
  else (st, false)

/-- `StorageService.delete_files`: delete many, counting successes. -/
def delete_files (st : StorageState) (hashes : List String) : StorageState × Nat :=
  hashes.foldl (fun acc h =>
    let r := delete_file acc.1 h
    (r.1, acc.2 + (if r.2 then 1 else 0))) (st, 0)

/-- `StorageService.cleanup_orphaned_temp_files`: remove temporary files
whose age exceeds `cleanup_orphaned_files_hours`. -/
def cleanup_orphaned_temp_files (s : Settings) (st : StorageState) (now : Nat) :
    StorageState × Nat :=
  let old := st.temps.filter (fun t => now - t.2 > s.cleanup_orphaned_files_hours)
  ({ st with temps := st.temps.filter (fun t => ¬ (now - t.2 > s.cleanup_orphaned_files_hours)) },
   old.length)

/-! ## Storage tiers and admission (`app/storage.py`) -/

inductive StorageStatus where
  | healthy
  | warning
  | critical
  | emergency
deriving DecidableEq

/-- `StorageService._get_storage_status`: the if/elif threshold ladder. -/
def get_storage_status (s : Settings) (percent_used : ℚ) : StorageStatus :=
  if percent_used ≥ s.storage_emergency_threshold then StorageStatus.emergency
  else if percent_used ≥ s.storage_critical_threshold then StorageStatus.critical
  else if percent_used ≥ s.storage_warning_threshold then StorageStatus.warning
  else StorageStatus.healthy

/-- Result of `StorageService.get_storage_stats`: either the usage
percentage with its derived status, or the `{"error": ..., "status":
"unknown"}` dictionary when `shutil.disk_usage` raised. -/
inductive StorageStats where
  | ok (percent_used : ℚ) (stat : StorageStatus)
  | err (msg : String)
deriving DecidableEq

/-- `StorageService.get_storage_stats`; `disk` is the outcome of the
`shutil.disk_usage` call (usage percentage, or the exception message). -/
def get_storage_stats (s : Settings) (disk : Except String ℚ) : StorageStats :=
  match disk with
  | Except.ok p => StorageStats.ok p (get_storage_status s p)
  | Except.error e => StorageStats.err e

/-- The `reason` string of `should_accept_upload`, kept structurally:
`ok` is the literal `"ok"`, `warningAt p` is `"warning: storage at {p}%"`,
`capacity p` is `"Storage critical: {p}% used. Uploads temporarily
disabled."`. -/
inductive UploadGateReason where
  | ok
  | warningAt (percent_used : ℚ)
  | capacity (percent_used : ℚ)
deriving DecidableEq

/-- `StorageService.should_accept_upload`: fail open on a stats error;
reject on emergency; accept-with-warning on critical; else accept. -/
def should_accept_upload (s : Settings) (disk : Except String ℚ) :
    Bool × UploadGateReason :=
  match get_storage_stats s disk with
  | StorageStats.err _ => (true, UploadGateReason.ok)
  | StorageStats.ok p stat =>
      if stat = StorageStatus.emergency then (false, UploadGateReason.capacity p)
      else if stat = StorageStatus.critical then (true, UploadGateReason.warningAt p)
      else (true, UploadGateReason.ok)

/-! ## Database (`app/database.py`, `app/models.py`)

The jobs table is a list of records, most recent insertion first; this
realises the `ORDER BY completed_at DESC LIMIT 1` of
`get_completed_job_by_hash` for the sequential histories modelled here.
Job identifiers (`uuid.uuid4()`) are modelled by a fresh-counter `Nat`:
generated at creation, never reused.  Scan results (`JSONB`) are
association lists from letters to counts. -/

abbrev ScanResults := List (Char × Nat)

inductive JobStatus where
  | pending
  | processing
  | completed
  | failed
deriving DecidableEq

structure Job where
  job_id : Nat
  file_hash : String
  original_filename : String
  file_size : Nat
  status : JobStatus
  results : Option ScanResults
  error_message : Option String
  created_at : Nat
  completed_at : Option Nat
  expires_at : Nat
deriving DecidableEq

/-- `json.dumps(results) if results else None`: Python truthiness turns an
empty results dict into SQL `NULL` as well. -/
def results_json (results : Option ScanResults) : Option ScanResults :=
  match results with
  | none => none
  | some r => if r.isEmpty then none else some r

/-- `Database.create_job`: insert a fresh record; `expires_at` is creation
time plus the retention window (`file_retention_days`, in hours here). -/
def create_job (s : Settings) (now : Nat) (db : List Job) (job_id : Nat)
    (file_hash : String) (original_filename : String) (file_size : Nat)
    (status : JobStatus) (results : Option ScanResults) : Job × List Job :=
  let job : Job :=
    { job_id := job_id
      file_hash := file_hash
      original_filename := original_filename
      file_size := file_size
      status := status
      results := results_json results
      error_message := none
      created_at := now
      completed_at := none
      expires_at := now + 24 * s.file_retention_days }
  (job, job :: db)

/-- `Database.get_job`: lookup by primary key. -/
def get_job (db : List Job) (job_id : Nat) : Option Job :=
  db.find? (fun j => j.job_id == job_id)

/-- `Database.get_completed_job_by_hash`: the most recent Completed job
with this fingerprint (`WHERE file_hash = $1 AND status = 'completed'
ORDER BY completed_at DESC LIMIT 1`). -/
def get_completed_job_by_hash (db : List Job) (file_hash : String) : Option Job :=
  db.find? (fun j => j.file_hash == file_hash && j.status == JobStatus.completed)

/-- The `SET` clause shared by `Database.update_job_status` and
`WorkerSimulator.update_job_status`: `status` is overwritten, `results` is
`COALESCE($3, results)`, `error_message` is overwritten, and
`completed_at` becomes `NOW()` exactly when the new status is terminal
(Completed or Failed), otherwise keeps its value. -/
def update_row (now : Nat) (status : JobStatus) (results : Option ScanResults)
    (error_message : Option String) (j : Job) : Job :=
  { j with
    status := status
    results := match results_json results with
               | some r => some r
               | none => j.results
    error_message := error_message
    completed_at :=
      if status = JobStatus.completed ∨ status = JobStatus.failed then some now
      else j.completed_at }

/-- `Database.update_job_status`: an unconditional `UPDATE ... WHERE
job_id = $1` — no guard on the current status. -/
def update_job_status (now : Nat) (db : List Job) (job_id : Nat)
    (status : JobStatus) (results : Option ScanResults)
    (error_message : Option String) : List Job :=
  db.map (fun j =>
    if j.job_id == job_id then update_row now status results error_message j else j)

/-- `Database.delete_expired_jobs`: `DELETE FROM jobs WHERE expires_at <
NOW() RETURNING ...`; returns the new table and the deleted count. -/
def delete_expired_jobs (now : Nat) (db : List Job) : List Job × Nat :=
  let kept := db.filter (fun j => ¬ j.expires_at < now)
  (kept, db.length - kept.length)

/-- `Database.get_old_file_hashes`: `SELECT DISTINCT file_hash FROM jobs
WHERE created_at < NOW() - INTERVAL '1 day' * $1` (days, modelled in
hours). -/
def get_old_file_hashes (now : Nat) (db : List Job) (days : Nat) : List String :=
  ((db.filter (fun j => j.created_at < now - 24 * days)).map Job.file_hash).dedup

/-! ## Cache (`app/cache.py`) and queue (`app/queue.py`)

Redis is modelled as two association lists (newest entry first, so a
lookup sees the most recent write, as an overwriting `SETEX` does) and an
append-only stream.  TTL expiry is real-time behaviour and not modelled:
the claims under verification exercise histories inside the TTL windows. -/

/-- A `file:{hash}:results` cache value (`CacheService.set_file_results`). -/
structure FileCacheEntry where
  file_hash : String
  results : ScanResults
  file_size : Nat
deriving DecidableEq

/-- `CacheService.get_file_results`. -/
def get_file_results (file_cache : List FileCacheEntry) (file_hash : String) :
    Option FileCacheEntry :=
  file_cache.find? (fun e => e.file_hash == file_hash)

/-- `CacheService.set_file_results` (prepend = overwrite for lookups). -/
def set_file_results (file_cache : List FileCacheEntry) (file_hash : String)
    (results : ScanResults) (file_size : Nat) : List FileCacheEntry :=
  { file_hash := file_hash, results := results, file_size := file_size } :: file_cache

/-- A `scan_jobs` stream entry (`QueueService.publish_job` field set). -/
structure QueueMessage where
  job_id : Nat
  file_hash : String
  file_path : String
  file_size : Nat
deriving DecidableEq

/-! ## Whole-system state

One record ties the four services together, plus the fresh-counter that
models `uuid.uuid4()`.  The `job_cache` holds `job:{id}:status` snapshots;
the `queue` is the append-only stream (`XADD` appends; acknowledging does
not remove entries from the stream, so its length counts publishes). -/

structure SysState where
  storage : StorageState
  jobs : List Job
  file_cache : List FileCacheEntry
  job_cache : List (Nat × Job)
  queue : List QueueMessage
  next_id : Nat
deriving DecidableEq

def emptyState : SysState :=
  { storage := { committed := [], temps := [] }
    jobs := []
    file_cache := []
    job_cache := []
    queue := []
    next_id := 0 }

/-- `CacheService.set_job_status`. -/
def set_job_status (st : SysState) (job_id : Nat) (job : Job) : SysState :=
  { st with job_cache := (job_id, job) :: st.job_cache }

/-- `QueueService.publish_job` (`XADD` appends to the stream). -/
def publish_job (st : SysState) (job_id : Nat) (file_hash : String)
    (file_path : String) (file_size : Nat) : SysState :=
  { st with queue := st.queue ++
      [{ job_id := job_id, file_hash := file_hash, file_path := file_path,
         file_size := file_size }] }

/-! ## Upload route (`app/api.py`, `upload_file`) -/

/-- The `HTTPException`s `upload_file` can raise before or while storing. -/
inductive UploadError where
  /-- 400, missing filename / file. -/
  | badRequest (detail : String)
  /-- 507, admission control rejected (`should_accept_upload` said no). -/
  | insufficientStorage (reason : UploadGateReason)
  /-- 413, `content_length > settings.max_upload_size`. -/
  | entityTooLarge
  /-- the `IOError` of `_verify_file_integrity`, surfaced as a 500. -/
  | corruption
deriving DecidableEq

/-- `app/models.py` `FileUploadResponse`. -/
structure FileUploadResponse where
  job_id : Nat
  status : JobStatus
  message : String
  deduplication : Bool
  results : Option ScanResults
deriving DecidableEq

/-- Observable side-effect trace of one `upload_file` call, used to state
which tier of the dedup chain resolved the request. -/
inductive Effect where
  | storageSave (file_hash : String)
  | cacheResultsLookup (file_hash : String)
  | dbLookupByHash (file_hash : String)
  | cacheResultsSet (file_hash : String)
  | dbCreateJob (job_id : Nat) (status : JobStatus)
  | jobCacheSet (job_id : Nat)
  | queuePublish (job_id : Nat) (file_hash : String)
deriving DecidableEq

/-- Tier 3 of the dedup chain in `upload_file`: create a Pending job,
cache its status, publish exactly one queue entry. -/
def upload_create_pending (s : Settings) (now : Nat) (st1 : SysState)
    (filename file_hash : String) (file_size : Nat) (file_path : String) :
    Except UploadError FileUploadResponse × SysState × List Effect :=
  let job_id := st1.next_id
  let created := create_job s now st1.jobs job_id file_hash filename file_size
    JobStatus.pending none
  let st2 := { st1 with jobs := created.2, next_id := st1.next_id + 1 }
  let st3 := set_job_status st2 job_id created.1
  let st4 := publish_job st3 job_id file_hash file_path file_size
  (Except.ok
    { job_id := job_id
      status := JobStatus.pending
      message := "File uploaded successfully, processing started"
      deduplication := false
      results := none },
   st4,
   [Effect.storageSave file_hash, Effect.cacheResultsLookup file_hash,
    Effect.dbLookupByHash file_hash, Effect.dbCreateJob job_id JobStatus.pending,
    Effect.jobCacheSet job_id, Effect.queuePublish job_id file_hash])

/-- Tier 2 of the dedup chain in `upload_file`: durable-store lookup by
fingerprint (backfilling the cache on a hit), else fall through to the
create-Pending tier. -/
def upload_dedup_db (s : Settings) (now : Nat) (st1 : SysState)
    (filename file_hash : String) (file_size : Nat) (file_path : String) :
    Except UploadError FileUploadResponse × SysState × List Effect :=
  match get_completed_job_by_hash st1.jobs file_hash with
  | some existing_job =>
    match results_json existing_job.results with
    | some r =>
        let st2 := { st1 with
          file_cache := set_file_results st1.file_cache file_hash r file_size }
        let job_id := st2.next_id
        let jobs' := (create_job s now st2.jobs job_id file_hash filename
          file_size JobStatus.completed (some r)).2
        (Except.ok
          { job_id := job_id
            status := JobStatus.completed
            message := "File already scanned, instant results from database"
            deduplication := true
            results := some r },
         { st2 with jobs := jobs', next_id := st2.next_id + 1 },
         [Effect.storageSave file_hash, Effect.cacheResultsLookup file_hash,
          Effect.dbLookupByHash file_hash, Effect.cacheResultsSet file_hash,
          Effect.dbCreateJob job_id JobStatus.completed])
    | none => upload_create_pending s now st1 filename file_hash file_size file_path
  | none => upload_create_pending s now st1 filename file_hash file_size file_path

/-- `upload_file` (`POST /api/v1/files`), following the source order:
filename check, admission gate, size check (`content_length` is
Starlette's `UploadFile.size`, the byte count of the part), store-and-hash,
then the dedup chain — cache lookup by fingerprint, durable lookup by
fingerprint (backfilling the cache), create-Pending-and-publish.  `disk`
feeds the admission gate; `now` timestamps records; the temporary file
name is unique per attempt (uniqueness is not load-bearing sequentially,
since every path removes its temp). -/
def upload_file (s : Settings) (disk : Except String ℚ) (now : Nat)
    (st : SysState) (filename : String) (content : List Nat) :
    Except UploadError FileUploadResponse × SysState × List Effect :=
  if filename = "" then
    (Except.error (UploadError.badRequest "No file provided"), st, [])
  else
    let gate := should_accept_upload s disk
    if gate.1 = false then
      (Except.error (UploadError.insufficientStorage gate.2), st, [])
    else
      let content_length := content.length
      if s.max_upload_size < content_length then
        (Except.error UploadError.entityTooLarge, st, [])
      else
        match calculate_hash_and_save s st.storage content content
            ("temp_" ++ toString st.next_id ++ "_" ++ filename) now with
        | (SaveResult.corruptionError, stor') =>
            (Except.error UploadError.corruption, { st with storage := stor' },
             [Effect.storageSave (sha256hex content)])
        | (SaveResult.ok file_hash file_size file_path, stor') =>
          let st1 := { st with storage := stor' }
          let cached := get_file_results st1.file_cache file_hash
          match cached with
          | some entry =>
            if entry.results.isEmpty then
              upload_dedup_db s now st1 filename file_hash file_size file_path
            else
              -- cache hit: new job, Completed, no queue publish, no
              -- job-by-hash lookup
              let job_id := st1.next_id
              let jobs' := (create_job s now st1.jobs job_id file_hash filename
                file_size JobStatus.completed (some entry.results)).2
              (Except.ok
                { job_id := job_id
                  status := JobStatus.completed
                  message := "File already scanned, instant results from cache"
                  deduplication := true
                  results := some entry.results },
               { st1 with jobs := jobs', next_id := st1.next_id + 1 },
               [Effect.storageSave file_hash, Effect.cacheResultsLookup file_hash,
                Effect.dbCreateJob job_id JobStatus.completed])
          | none =>
              upload_dedup_db s now st1 filename file_hash file_size file_path

/-! ## Worker (`scripts/worker_simulator.py`)

The worker consumes a stream entry, scans the stored content and updates
the job.  File contents are ASCII text read back from the
content-addressed store (the source opens the file as UTF-8 text with
errors ignored; on the ASCII byte values used throughout, each byte is one
character).  The Docker/local path remapping (environment variables) is
deployment-specific and outside the model. -/

/-- The 26 uppercase letters, as initialised by
`{chr(i): 0 for i in range(65, 91)}`. -/
def letterChars : List Char := (List.range 26).map (fun i => Char.ofNat (65 + i))

/-- `WorkerSimulator.scan_file`: case-fold each character to uppercase and
count occurrences of each of the 26 letters (`for char in chunk.upper():
if 'A' <= char <= 'Z': counts[char] += 1`); all other characters are
ignored.  Chunked reading does not affect the counts. -/
def scan_file (content : List Nat) : ScanResults :=
  letterChars.map (fun c =>
    (c, (content.filter (fun b => (Char.ofNat b).toUpper == c)).length))

/-- `WorkerSimulator.update_job_status`: the worker's unconditional
`UPDATE` (status overwritten, results `COALESCE`d, error overwritten,
`completed_at` set to `NOW()` exactly when the new status is terminal),
followed by deleting the `job:{id}:status` cache key. -/
def worker_update_job_status (now : Nat) (st : SysState) (job_id : Nat)
    (status : JobStatus) (results : Option ScanResults)
    (error_message : Option String) : SysState :=
  { st with
    jobs := st.jobs.map (fun j =>
      if j.job_id == job_id then update_row now status results error_message j else j)
    job_cache := st.job_cache.filter (fun p => ¬ p.1 == job_id) }

/-- `WorkerSimulator.cache_results`: `SETEX file:{hash}:results`. -/
def cache_results (st : SysState) (file_hash : String) (results : ScanResults)
    (file_size : Nat) : SysState :=
  { st with file_cache := set_file_results st.file_cache file_hash results file_size }

/-- `WorkerSimulator.process_message`: mark Processing; scan the stored
content; on success mark Completed with results, populate the result
cache, and `XACK`; on any scan failure (here: the content-addressed file
is missing, `FileNotFoundError`) mark Failed with the error detail — the
`except` branch of the source contains no `XACK`.  The returned `Bool` is
whether the entry was acknowledged. -/
def process_message (now : Nat) (st : SysState) (msg : QueueMessage) :
    SysState × Bool :=
  let st1 := worker_update_job_status now st msg.job_id JobStatus.processing none none
  -- the scan reads the storage directory, which the DB update left untouched
  match storage_read st.storage msg.file_hash with
  | some bytes =>
      let results := scan_file bytes
      let st2 := worker_update_job_status now st1 msg.job_id JobStatus.completed
        (some results) none
      let st3 := cache_results st2 msg.file_hash results msg.file_size
      (st3, true)
  | none =>
      let st2 := worker_update_job_status now st1 msg.job_id JobStatus.failed none
        (some ("File not found: " ++ msg.file_path))
      (st2, false)

/-! ## Retention cleanup (`app/cleanup.py`) -/

/-- The dictionary returned by one cleanup cycle. -/
inductive CleanupOutcome where
  /-- stats unreadable: `{"error": ..., "orphaned_cleanup": ...}`. -/
  | statsError (msg : String)
  /-- one of the emergency/critical/warning branches ran. -/
  | tiered (tier : StorageStatus) (deleted_files : Nat)
  /-- the healthy branch ran `cleanup_expired_files`. -/
  | standard (deleted_jobs : Nat) (deleted_files : Nat)
deriving DecidableEq

/-- `CleanupService.cleanup_expired_files`: drop job records past their
expiration, then delete content whose jobs are older than the retention
window. -/
def cleanup_expired_files (s : Settings) (now : Nat) (st : SysState) :
    SysState × CleanupOutcome :=
  let expired := delete_expired_jobs now st.jobs
  let old_hashes := get_old_file_hashes now expired.1 s.file_retention_days
  let del := delete_files st.storage old_hashes
  ({ st with jobs := expired.1, storage := del.1 },
   CleanupOutcome.standard expired.2 del.2)

/-- `CleanupService.cleanup_by_storage_state`: always reclaim orphaned
temps first, then branch on the measured tier — emergency runs
`get_old_file_hashes(days=0)`, critical `days=1`, warning `days=3`,
healthy the standard expiration cleanup. -/
def cleanup_by_storage_state (s : Settings) (disk : Except String ℚ)
    (now : Nat) (st : SysState) : SysState × CleanupOutcome :=
  let orphaned := cleanup_orphaned_temp_files s st.storage now
  let st0 := { st with storage := orphaned.1 }
  match get_storage_stats s disk with
  | StorageStats.err e => (st0, CleanupOutcome.statsError e)
  | StorageStats.ok _ stat =>
    if stat = StorageStatus.emergency then
      let del := delete_files st0.storage (get_old_file_hashes now st0.jobs 0)
      ({ st0 with storage := del.1 },
       CleanupOutcome.tiered StorageStatus.emergency del.2)
    else if stat = StorageStatus.critical then
      let del := delete_files st0.storage (get_old_file_hashes now st0.jobs 1)
      ({ st0 with storage := del.1 },
       CleanupOutcome.tiered StorageStatus.critical del.2)
    else if stat = StorageStatus.warning then
      let del := delete_files st0.storage (get_old_file_hashes now st0.jobs 3)
      ({ st0 with storage := del.1 },
       CleanupOutcome.tiered StorageStatus.warning del.2)
    else
      cleanup_expired_files s now st0

/-! ## Concrete fixtures for scenario theorems and witnesses -/

/-- An empty storage directory. -/
def emptyStorage : StorageState := { committed := [], temps := [] }

/-- A Completed job record (fingerprint `"abcd"`, result already stored). -/
def doneJob : Job :=
  { job_id := 0
    file_hash := "abcd"
    original_filename := "f.txt"
    file_size := 4
    status := JobStatus.completed
    results := some [('A', 1)]
    error_message := none
    created_at := 10
    completed_at := some 11
    expires_at := 178 }

/-- A Pending job whose stored content has gone missing. -/
def orphanJob : Job :=
  { job_id := 0
    file_hash := "deadbeef"
    original_filename := "g.txt"
    file_size := 4
    status := JobStatus.pending
    results := none
    error_message := none
    created_at := 10
    completed_at := none
    expires_at := 178 }

/-- System state in which `orphanJob` is queued but its content-addressed
file does not exist. -/
def missingContentState : SysState :=
  { storage := emptyStorage
    jobs := [orphanJob]
    file_cache := []
    job_cache := []
    queue := [{ job_id := 0, file_hash := "deadbeef",
                file_path := "/data/files/de/ad/deadbeef", file_size := 4 }]
    next_id := 1 }

/-- The queue entry of `missingContentState`. -/
def missingContentMsg : QueueMessage :=
  { job_id := 0, file_hash := "deadbeef",
    file_path := "/data/files/de/ad/deadbeef", file_size := 4 }

/-- A job created at hour 99 — one hour before the cleanup run at hour
100, far inside the 12-hour emergency retention window. -/
def freshJob : Job :=
  { job_id := 0
    file_hash := "h1"
    original_filename := "f.txt"
    file_size := 1
    status := JobStatus.completed
    results := some [('A', 1)]
    error_message := none
    created_at := 99
    completed_at := some 99
    expires_at := 267 }

/-- System state holding `freshJob` and its stored content. -/
def freshJobState : SysState :=
  { storage := { committed := [("h1", [65])], temps := [] }
    jobs := [freshJob]
    file_cache := []
    job_cache := []
    queue := []
    next_id := 1 }

/-- Settings with a 2-byte upload limit, for exercising the size gate. -/
def tinyLimitSettings : Settings :=
  { defaultSettings with max_upload_size := 2 }

/-- Fallback value for reading the head of the queue (never used when the
queue is non-empty). -/
def dummyMsg : QueueMessage :=
  { job_id := 0, file_hash := "", file_path := "", file_size := 0 }

/-- The single queue entry published for content `C` by a fresh upload
(job id 0). -/
def msg0 (s : Settings) (C : List Nat) : QueueMessage :=
  { job_id := 0, file_hash := sha256hex C,
    file_path := get_file_path s (sha256hex C), file_size := C.length }

/-- Job 0 after the worker completed it: Completed with the scan results
of `C`. -/
def doneJob0 (s : Settings) (n0 n1 : Nat) (filename : String) (C : List Nat) : Job :=
  { job_id := 0, file_hash := sha256hex C, original_filename := filename,
    file_size := C.length, status := JobStatus.completed,
    results := some (scan_file C),
    error_message := none, created_at := n0, completed_at := some n1,
    expires_at := n0 + 24 * s.file_retention_days }

/-- The sequential dedup scenario: upload content `C` into the empty
system, let the worker process the (single) published queue entry, then
upload the same content again.  Returns the first upload's outcome, the
worker pass's outcome, and the second upload's outcome. -/
def submit_twice (s : Settings) (disk : Except String ℚ) (n0 n1 n2 : Nat)
    (filename : String) (C : List Nat) :
    (Except UploadError FileUploadResponse × SysState × List Effect) ×
      (SysState × Bool) ×
      (Except UploadError FileUploadResponse × SysState × List Effect) :=
  let r1 := upload_file s disk n0 emptyState filename C
  let w := process_message n1 r1.2.1 (r1.2.1.queue.getD 0 dummyMsg)
  let r2 := upload_file s disk n2 w.1 filename C
  (r1, w, r2)

/-! # Theorems -/

/-! ## C10 — admission control fails open on a stats error -/

/-- C10: Admission control fails open: whenever reading storage statistics
fails (the stats result carries an error instead of a tier),
`should_accept_upload` returns accept with the "ok" reason — uploads are
admitted even though the actual storage pressure is unknown and could be
at the Emergency tier. -/
theorem c10_fail_open (s : Settings) (e : String) :
    get_storage_stats s (Except.error e) = StorageStats.err e ∧
    should_accept_upload s (Except.error e) = (true, UploadGateReason.ok) :=
  ⟨rfl, rfl⟩

/-! ## C8 — the "AAAbbbCCC" example -/

/-- C8 counterexample: the claim says the scan of "AAAbbbCCC" maps every
letter except A and C to 0, but the three lowercase `b`s are case-folded
to `B` before counting, so the scan maps B to 3, not 0. -/
theorem c8_counterexample :
    (scan_file (strBytes "AAAbbbCCC")).lookup 'B' = some 3 ∧
    (scan_file (strBytes "AAAbbbCCC")).lookup 'B' ≠ some 0 := by
  decide

/-- C8 amended: uploading the 9 bytes "AAAbbbCCC" yields fingerprint
sha256("AAAbbbCCC") =
6951d4ee0c64474a8ba70b6761346800b1b1f6c20e22b08552dd0254eba272d4, and the
scan result maps A to 3, B to 3 (the case-folded b's), C to 3 and the
other 23 letters to 0 — every one of the 26 uppercase letters is mapped
to a (non-negative) count and non-letter characters would be ignored. -/
theorem c8_scan_example :
    (calculate_hash_and_save defaultSettings emptyStorage
        (strBytes "AAAbbbCCC") (strBytes "AAAbbbCCC") "temp_0_f.txt" 0).1 =
      SaveResult.ok
        "6951d4ee0c64474a8ba70b6761346800b1b1f6c20e22b08552dd0254eba272d4" 9
        (get_file_path defaultSettings
          "6951d4ee0c64474a8ba70b6761346800b1b1f6c20e22b08552dd0254eba272d4") ∧
    scan_file (strBytes "AAAbbbCCC") =
      [('A', 3), ('B', 3), ('C', 3), ('D', 0), ('E', 0), ('F', 0), ('G', 0),
       ('H', 0), ('I', 0), ('J', 0), ('K', 0), ('L', 0), ('M', 0), ('N', 0),
       ('O', 0), ('P', 0), ('Q', 0), ('R', 0), ('S', 0), ('T', 0), ('U', 0),
       ('V', 0), ('W', 0), ('X', 0), ('Y', 0), ('Z', 0)] := by
  constructor
  · decide
  · decide

/-! ## C4 — job status transitions are not guarded -/

/-- C4 counterexample: `update_job_status` (and the worker's variant) are
unconditional `UPDATE`s, so the transition Completed→Processing — which
the claim says is unreachable — is reachable: updating the Completed job
`doneJob` to Processing succeeds. -/
theorem c4_counterexample :
    doneJob.status = JobStatus.completed ∧
    (get_job (update_job_status 20 [doneJob] 0 JobStatus.processing none none) 0).map
      Job.status = some JobStatus.processing ∧
    (get_job (worker_update_job_status 20
        { storage := emptyStorage, jobs := [doneJob], file_cache := [],
          job_cache := [], queue := [], next_id := 1 }
        0 JobStatus.processing none none).jobs 0).map
      Job.status = some JobStatus.processing := by
  decide

/-- C4 amended: the operations that mutate a job's status perform an
unconditional `UPDATE ... WHERE job_id = $1` with no guard on the current
status, so for every current status and every target status the write
succeeds; the chain Pending→Processing→{Completed,Failed} is the normal
flow but is not enforced — in particular a redelivered queue entry drives
Completed→Processing. -/
theorem c4_update_unguarded (now : Nat) (j : Job) (t : JobStatus)
    (r : Option ScanResults) (e : Option String) (st : SysState) :
    (get_job (update_job_status now [j] j.job_id t r e) j.job_id).map
      Job.status = some t ∧
    (get_job (worker_update_job_status now { st with jobs := [j] }
        j.job_id t r e).jobs j.job_id).map Job.status = some t := by
  constructor
  · simp [update_job_status, get_job, update_row]
  · simp [worker_update_job_status, get_job, update_row]

/-! ## C5 — failed scans are not acknowledged -/

/-- `update_row` never changes the primary key. -/
theorem update_row_job_id (now : Nat) (t : JobStatus) (r : Option ScanResults)
    (e : Option String) (j : Job) : (update_row now t r e j).job_id = j.job_id :=
  rfl

/-- Looking a job up after an unconditional row update: the update is
applied pointwise under the primary-key lookup. -/
theorem get_job_map_update (now : Nat) (jobs : List Job) (id : Nat)
    (t : JobStatus) (r : Option ScanResults) (e : Option String) :
    get_job (jobs.map (fun j =>
      if j.job_id == id then update_row now t r e j else j)) id =
      (get_job jobs id).map (fun j =>
        if j.job_id == id then update_row now t r e j else j) := by
  have hpf : ((fun jj => jj.job_id == id) ∘ (fun j =>
      if j.job_id == id then update_row now t r e j else j)) =
      fun jj => jj.job_id == id := by
    funext jj
    by_cases h : jj.job_id = id
    · simp [h, update_row_job_id]
    · simp [h]
  simp only [get_job, List.find?_map, hpf]

/-- C5 counterexample: a consumed queue entry whose scan fails (the
content-addressed file is missing) is NOT acknowledged: the `except`
branch of `WorkerSimulator.process_message` updates the job to Failed but
contains no `XACK`, contradicting the claim that a Failed transition
still acknowledges the entry. -/
theorem c5_counterexample :
    (process_message 11 missingContentState missingContentMsg).2 = false ∧
    (get_job (process_message 11 missingContentState missingContentMsg).1.jobs 0).map
      Job.status = some JobStatus.failed := by
  decide

/-- C5 amended: the worker acknowledges an entry exactly when the scan
succeeded (a Completed transition); when the scan fails it transitions the
job to Failed with the error detail and does NOT acknowledge, so the entry
remains eligible for redelivery; only the enclosing loop's transport-level
read errors are likewise retried without acknowledgment. -/
theorem c5_failed_scan_not_acked (now : Nat) (st : SysState) (msg : QueueMessage) :
    ((process_message now st msg).2 = true ↔
      (storage_read st.storage msg.file_hash).isSome = true) ∧
    (storage_read st.storage msg.file_hash = none →
      ∀ j, get_job st.jobs msg.job_id = some j →
        (get_job (process_message now st msg).1.jobs msg.job_id).map Job.status =
          some JobStatus.failed ∧
        (get_job (process_message now st msg).1.jobs msg.job_id).map
          Job.error_message = some (some ("File not found: " ++ msg.file_path))) := by
  rcases hread : storage_read st.storage msg.file_hash with _ | bytes
  · constructor
    · simp [process_message, hread]
    · intro _ j hj
      have hj' : List.find? (fun jj => jj.job_id == msg.job_id) st.jobs = some j := hj
      have hpred : (j.job_id == msg.job_id) = true := by
        simpa using List.find?_some hj'
      have heq : j.job_id = msg.job_id := beq_iff_eq.mp hpred
      simp only [process_message, hread, worker_update_job_status]
      rw [get_job_map_update, get_job_map_update, hj]
      constructor <;> simp [hpred, heq, update_row, update_row_job_id]
  · constructor
    · simp [process_message, hread]
    · intro hnone
      simp at hnone

/-- Witness for the amended C5 statement: at the concrete lost-content
state, the scan fails, the job ends Failed, and the entry is not
acknowledged. -/
theorem c5_failed_scan_witness :
    storage_read missingContentState.storage missingContentMsg.file_hash = none ∧
    get_job missingContentState.jobs 0 = some orphanJob ∧
    (get_job (process_message 11 missingContentState missingContentMsg).1.jobs 0).map
      Job.status = some JobStatus.failed := by
  refine ⟨rfl, rfl, ?_⟩
  exact ((c5_failed_scan_not_acked 11 missingContentState missingContentMsg).2 rfl
    orphanJob rfl).1

/-! ## C6 — the Emergency retention window -/

/-- C6: the code contradicts the 12-hour Emergency retention window its
own comments and docstring describe.  The emergency branch of
`cleanup_by_storage_state` calls `get_old_file_hashes(days=0)`, whose SQL
cutoff `NOW() - INTERVAL '1 day' * 0` is `NOW()` — selecting every job.
At the failing input (storage at 96% ⇒ Emergency; one job created one
hour before the run, well inside any 12-hour window) the job's content is
deleted, where the claim (and the source's own comment "Delete files older
than 12 hours") says it must be left untouched. -/
theorem c6_emergency_cutoff_bug :
    (100 : Nat) - freshJob.created_at = 1 ∧
    get_old_file_hashes 100 [freshJob] 0 = ["h1"] ∧
    get_old_file_hashes 100 [freshJob] 1 = [] ∧
    (cleanup_by_storage_state defaultSettings (Except.ok 96) 100 freshJobState).2 =
      CleanupOutcome.tiered StorageStatus.emergency 1 ∧
    (cleanup_by_storage_state defaultSettings (Except.ok 96) 100
      freshJobState).1.storage.committed = [] := by
  decide

/-! ## C2 — saving the same content twice -/

/-- C2: for all byte content `C`, saving `C` twice produces the same
fingerprint both times and exactly one physical artifact at the canonical
content-addressed location: the first save verifies and commits, the
second detects the committed content, deletes its own temporary file and
writes nothing — the storage state after the second save is exactly the
state after the first. -/
theorem c2_save_twice (s : Settings) (stor : StorageState) (C : List Nat)
    (t1 t2 : String) (n1 n2 : Nat)
    (hnew : storage_contains stor (sha256hex C) = false) :
    (calculate_hash_and_save s stor C C t1 n1).1 =
      SaveResult.ok (sha256hex C) C.length (get_file_path s (sha256hex C)) ∧
    (calculate_hash_and_save s stor C C t1 n1).2 =
      { committed := (sha256hex C, C) :: stor.committed, temps := stor.temps } ∧
    (calculate_hash_and_save s (calculate_hash_and_save s stor C C t1 n1).2
        C C t2 n2).1 = (calculate_hash_and_save s stor C C t1 n1).1 ∧
    (calculate_hash_and_save s (calculate_hash_and_save s stor C C t1 n1).2
        C C t2 n2).2 = (calculate_hash_and_save s stor C C t1 n1).2 ∧
    ((calculate_hash_and_save s (calculate_hash_and_save s stor C C t1 n1).2
        C C t2 n2).2.committed.filter (fun q => q.1 == sha256hex C)).length = 1 := by
  have hc1 : storage_contains
      { committed := stor.committed, temps := (t1, n1) :: stor.temps }
      (sha256hex C) = false := hnew
  have h1 : calculate_hash_and_save s stor C C t1 n1 =
      (SaveResult.ok (sha256hex C) C.length (get_file_path s (sha256hex C)),
       { committed := (sha256hex C, C) :: stor.committed, temps := stor.temps }) := by
    simp [calculate_hash_and_save, hc1]
  have hc2 : storage_contains
      { committed := (sha256hex C, C) :: stor.committed,
        temps := (t2, n2) :: stor.temps } (sha256hex C) = true := by
    simp [storage_contains]
  have h2 : calculate_hash_and_save s
      { committed := (sha256hex C, C) :: stor.committed, temps := stor.temps }
      C C t2 n2 =
      (SaveResult.ok (sha256hex C) C.length (get_file_path s (sha256hex C)),
       { committed := (sha256hex C, C) :: stor.committed, temps := stor.temps }) := by
    simp [calculate_hash_and_save, hc2]
  have hnil : stor.committed.filter (fun q => q.1 == sha256hex C) = [] := by
    rw [List.filter_eq_nil_iff]
    intro a ha
    simp only [storage_contains] at hnew
    have := List.any_eq_false.mp hnew a ha
    simpa using this
  rw [h1, h2]
  refine ⟨rfl, rfl, rfl, rfl, ?_⟩
  simp [hnil]

/-- C2 witness: a concrete instance — the single byte "A" saved into an
empty store. -/
theorem c2_save_twice_witness :
    storage_contains emptyStorage (sha256hex (strBytes "A")) = false ∧
    (calculate_hash_and_save defaultSettings emptyStorage (strBytes "A")
      (strBytes "A") "temp_a" 0).1 =
      SaveResult.ok (sha256hex (strBytes "A")) 1
        (get_file_path defaultSettings (sha256hex (strBytes "A"))) := by
  refine ⟨rfl, ?_⟩
  exact (c2_save_twice defaultSettings emptyStorage (strBytes "A")
    "temp_a" "temp_b" 0 0 rfl).1

/-! ## C3 — corruption detection -/

/-- C3: if the digest recomputed from the written temporary file differs
from the streaming digest (and the canonical location was free, so the
verification stage actually runs), the save raises the corruption error,
the temporary artifact is deleted (the storage state is exactly the
original), and no content exists at the canonical location derived from
the streaming digest — the move into the canonical path never happens. -/
theorem c3_corruption_rejected (s : Settings) (stor : StorageState)
    (C W : List Nat) (t : String) (n : Nat)
    (hmiss : storage_contains stor (sha256hex C) = false)
    (hbad : ¬ sha256hex W = sha256hex C) :
    calculate_hash_and_save s stor C W t n = (SaveResult.corruptionError, stor) ∧
    storage_contains (calculate_hash_and_save s stor C W t n).2
      (sha256hex C) = false := by
  have hc : storage_contains
      { committed := stor.committed, temps := (t, n) :: stor.temps }
      (sha256hex C) = false := hmiss
  have h1 : calculate_hash_and_save s stor C W t n =
      (SaveResult.corruptionError, stor) := by
    simp [calculate_hash_and_save, hc, hbad]
  refine ⟨h1, ?_⟩
  rw [h1]
  exact hmiss

/-- C3 witness: streaming content "A" while the bytes "B" land on disk;
the recomputed digest differs, so the save is rejected and the store is
untouched. -/
theorem c3_corruption_witness :
    storage_contains emptyStorage (sha256hex (strBytes "A")) = false ∧
    ¬ sha256hex (strBytes "B") = sha256hex (strBytes "A") ∧
    calculate_hash_and_save defaultSettings emptyStorage (strBytes "A")
      (strBytes "B") "temp_a" 0 = (SaveResult.corruptionError, emptyStorage) := by
  refine ⟨rfl, by decide, ?_⟩
  exact (c3_corruption_rejected defaultSettings emptyStorage (strBytes "A")
    (strBytes "B") "temp_a" 0 rfl (by decide)).1

/-! ## C9 — the upload size limit -/

/-- C9: an upload whose byte size exceeds `max_upload_size` is rejected
with the 413 size-limit error before the content is stored: the system
state is returned unchanged (nothing saved, no job created) and the
effect trace is empty (nothing published).  The admission gate runs
before the size check in the source, so the hypothesis fixes it to
accept. -/
theorem c9_size_limit_rejected (s : Settings) (disk : Except String ℚ)
    (now : Nat) (st : SysState) (filename : String) (C : List Nat)
    (hname : ¬ filename = "")
    (hgate : (should_accept_upload s disk).1 = true)
    (hsize : s.max_upload_size < C.length) :
    upload_file s disk now st filename C =
      (Except.error UploadError.entityTooLarge, st, []) := by
  simp [upload_file, hname, hgate, hsize]

/-- C9 witness: a 3-byte upload against a 2-byte limit (with the stats
call failing, so the admission gate accepts by fail-open). -/
theorem c9_size_limit_witness :
    ¬ ("f.txt" : String) = "" ∧
    (should_accept_upload tinyLimitSettings (Except.error "statfs failed")).1 = true ∧
    tinyLimitSettings.max_upload_size < ([65, 66, 67] : List Nat).length ∧
    upload_file tinyLimitSettings (Except.error "statfs failed") 0 emptyState
      "f.txt" [65, 66, 67] = (Except.error UploadError.entityTooLarge, emptyState, []) := by
  refine ⟨by decide, rfl, by decide, ?_⟩
  exact c9_size_limit_rejected tinyLimitSettings (Except.error "statfs failed") 0
    emptyState "f.txt" [65, 66, 67] (by decide) rfl (by decide)

/-! ## C7 — tiers and the admission gate -/

/-- C7: with strictly ordered thresholds, the tier of a disk-usage
percentage `p` is Emergency iff `p` is at or above the emergency
threshold, Critical iff between critical and emergency, Warning iff
between warning and critical, else Healthy; `should_accept_upload`
rejects exactly when the tier is Emergency (with the capacity message
carrying `p`), accepts with a warning annotation on Critical, and accepts
with "ok" otherwise; in particular at 96% used under the default
thresholds (85/90/95) it returns `(false, capacity message)`. -/
theorem c7_tier_thresholds_and_gate (s : Settings) (p : ℚ)
    (hwc : s.storage_warning_threshold < s.storage_critical_threshold)
    (hce : s.storage_critical_threshold < s.storage_emergency_threshold) :
    (get_storage_status s p = StorageStatus.emergency ↔
      s.storage_emergency_threshold ≤ p) ∧
    (get_storage_status s p = StorageStatus.critical ↔
      s.storage_critical_threshold ≤ p ∧ p < s.storage_emergency_threshold) ∧
    (get_storage_status s p = StorageStatus.warning ↔
      s.storage_warning_threshold ≤ p ∧ p < s.storage_critical_threshold) ∧
    (get_storage_status s p = StorageStatus.healthy ↔
      p < s.storage_warning_threshold) ∧
    ((should_accept_upload s (Except.ok p)).1 = false ↔
      get_storage_status s p = StorageStatus.emergency) ∧
    (get_storage_status s p = StorageStatus.emergency →
      should_accept_upload s (Except.ok p) = (false, UploadGateReason.capacity p)) ∧
    (get_storage_status s p = StorageStatus.critical →
      should_accept_upload s (Except.ok p) = (true, UploadGateReason.warningAt p)) ∧
    ((get_storage_status s p = StorageStatus.healthy ∨
        get_storage_status s p = StorageStatus.warning) →
      should_accept_upload s (Except.ok p) = (true, UploadGateReason.ok)) ∧
    should_accept_upload defaultSettings (Except.ok 96) =
      (false, UploadGateReason.capacity 96) := by
  have hgate : should_accept_upload s (Except.ok p) =
      (if get_storage_status s p = StorageStatus.emergency then
        (false, UploadGateReason.capacity p)
      else if get_storage_status s p = StorageStatus.critical then
        (true, UploadGateReason.warningAt p)
      else (true, UploadGateReason.ok)) := rfl
  have hiffs : (get_storage_status s p = StorageStatus.emergency ↔
      s.storage_emergency_threshold ≤ p) ∧
      (get_storage_status s p = StorageStatus.critical ↔
        s.storage_critical_threshold ≤ p ∧ p < s.storage_emergency_threshold) ∧
      (get_storage_status s p = StorageStatus.warning ↔
        s.storage_warning_threshold ≤ p ∧ p < s.storage_critical_threshold) ∧
      (get_storage_status s p = StorageStatus.healthy ↔
        p < s.storage_warning_threshold) := by
    rcases le_or_lt s.storage_emergency_threshold p with hem | hem
    · have hstat : get_storage_status s p = StorageStatus.emergency := by
        unfold get_storage_status
        rw [if_pos hem]
      rw [hstat]
      refine ⟨⟨fun _ => hem, fun _ => rfl⟩, ?_, ?_, ?_⟩
      · constructor
        · intro h
          exact absurd h (by decide)
        · intro hP
          exact absurd hP.2 (not_lt.mpr hem)
      · constructor
        · intro h
          exact absurd h (by decide)
        · intro hP
          exact absurd hP.2 (not_lt.mpr (le_trans hce.le hem))
      · constructor
        · intro h
          exact absurd h (by decide)
        · intro hP
          exact absurd hP (not_lt.mpr (le_trans (le_trans hwc.le hce.le) hem))
    · rcases le_or_lt s.storage_critical_threshold p with hcr | hcr
      · have hstat : get_storage_status s p = StorageStatus.critical := by
          unfold get_storage_status
          rw [if_neg (not_le.mpr hem), if_pos hcr]
        rw [hstat]
        refine ⟨?_, ⟨fun _ => ⟨hcr, hem⟩, fun _ => rfl⟩, ?_, ?_⟩
        · constructor
          · intro h
            exact absurd h (by decide)
          · intro hP
            exact absurd hP (not_le.mpr hem)
        · constructor
          · intro h
            exact absurd h (by decide)
          · intro hP
            exact absurd hP.2 (not_lt.mpr hcr)
        · constructor
          · intro h
            exact absurd h (by decide)
          · intro hP
            exact absurd hP (not_lt.mpr (le_trans hwc.le hcr))
      · rcases le_or_lt s.storage_warning_threshold p with hwa | hwa
        · have hstat : get_storage_status s p = StorageStatus.warning := by
            unfold get_storage_status
            rw [if_neg (not_le.mpr hem), if_neg (not_le.mpr hcr), if_pos hwa]
          rw [hstat]
          refine ⟨?_, ?_, ⟨fun _ => ⟨hwa, hcr⟩, fun _ => rfl⟩, ?_⟩
          · constructor
            · intro h
              exact absurd h (by decide)
            · intro hP
              exact absurd hP (not_le.mpr hem)
          · constructor
            · intro h
              exact absurd h (by decide)
            · intro hP
              exact absurd hP.1 (not_le.mpr hcr)
          · constructor
            · intro h
              exact absurd h (by decide)
            · intro hP
              exact absurd hP (not_lt.mpr hwa)
        · have hstat : get_storage_status s p = StorageStatus.healthy := by
            unfold get_storage_status
            rw [if_neg (not_le.mpr hem), if_neg (not_le.mpr hcr),
              if_neg (not_le.mpr hwa)]
          rw [hstat]
          refine ⟨?_, ?_, ?_, ⟨fun _ => hwa, fun _ => rfl⟩⟩
          · constructor
            · intro h
              exact absurd h (by decide)
            · intro hP
              exact absurd hP (not_le.mpr hem)
          · constructor
            · intro h
              exact absurd h (by decide)
            · intro hP
              exact absurd hP.1 (not_le.mpr hcr)
          · constructor
            · intro h
              exact absurd h (by decide)
            · intro hP
              exact absurd hP.1 (not_le.mpr hwa)
  obtain ⟨h1, h2, h3, h4⟩ := hiffs
  have h5 : (should_accept_upload s (Except.ok p)).1 = false ↔
      get_storage_status s p = StorageStatus.emergency := by
    rw [hgate]
    by_cases hq : get_storage_status s p = StorageStatus.emergency
    · simp [hq]
    · by_cases hq2 : get_storage_status s p = StorageStatus.critical <;>
        simp [hq, hq2]
  have h6 : get_storage_status s p = StorageStatus.emergency →
      should_accept_upload s (Except.ok p) =
        (false, UploadGateReason.capacity p) := by
    intro hq
    rw [hgate]
    simp [hq]
  have h7 : get_storage_status s p = StorageStatus.critical →
      should_accept_upload s (Except.ok p) =
        (true, UploadGateReason.warningAt p) := by
    intro hq
    rw [hgate]
    simp [hq]
  have h8 : (get_storage_status s p = StorageStatus.healthy ∨
      get_storage_status s p = StorageStatus.warning) →
      should_accept_upload s (Except.ok p) = (true, UploadGateReason.ok) := by
    rintro (hq | hq) <;> rw [hgate] <;> simp [hq]
  have h9 : should_accept_upload defaultSettings (Except.ok 96) =
      (false, UploadGateReason.capacity 96) := by decide
  exact ⟨h1, h2, h3, h4, h5, h6, h7, h8, h9⟩

/-- C7 witness: the default thresholds 85 < 90 < 95 are strictly ordered,
and at 96% the tier is Emergency and the gate rejects with the capacity
message. -/
theorem c7_witness :
    defaultSettings.storage_warning_threshold <
      defaultSettings.storage_critical_threshold ∧
    defaultSettings.storage_critical_threshold <
      defaultSettings.storage_emergency_threshold ∧
    (get_storage_status defaultSettings 96 = StorageStatus.emergency ↔
      defaultSettings.storage_emergency_threshold ≤ 96) ∧
    should_accept_upload defaultSettings (Except.ok 96) =
      (false, UploadGateReason.capacity 96) := by
  refine ⟨by decide, by decide, ?_, ?_⟩
  · exact (c7_tier_thresholds_and_gate defaultSettings 96 (by decide) (by decide)).1
  · exact (c7_tier_thresholds_and_gate defaultSettings 96 (by decide)
      (by decide)).2.2.2.2.2.2.2.2

/-! ## C1 — sequential submit-twice deduplication -/

/-- The scan result always carries the 26 letter buckets, so it is never
empty (Python truthiness never discards it). -/
theorem scan_file_isEmpty (C : List Nat) : (scan_file C).isEmpty = false := rfl

/-- C1: submitting content `C` twice sequentially (the second submit after
the worker completed the first job): the first submit returns a fresh job
id 0, Pending, and publishes exactly one queue entry; the worker completes
job 0 with the scan results; the second submit returns a distinct, newly
generated job id 1, immediately Completed with results identical to the
first job's, resolved by the dedup chain's first tier (its effect trace is
exactly save → cache-lookup → create-Completed: the cache hit wins, the
record store's job-by-hash index is never consulted and nothing is
published); the queue still holds exactly the one entry from the first
submit, so at most one entry was ever published for this content. -/
theorem c1_submit_twice_dedup (s : Settings) (disk : Except String ℚ)
    (n0 n1 n2 : Nat) (filename : String) (C : List Nat)
    (hname : ¬ filename = "")
    (hgate : (should_accept_upload s disk).1 = true)
    (hsize : ¬ s.max_upload_size < C.length) :
    (submit_twice s disk n0 n1 n2 filename C).1.1 =
      Except.ok { job_id := 0, status := JobStatus.pending,
                  message := "File uploaded successfully, processing started",
                  deduplication := false, results := none } ∧
    (submit_twice s disk n0 n1 n2 filename C).1.2.1.queue = [msg0 s C] ∧
    (submit_twice s disk n0 n1 n2 filename C).2.1.2 = true ∧
    get_job (submit_twice s disk n0 n1 n2 filename C).2.1.1.jobs 0 =
      some (doneJob0 s n0 n1 filename C) ∧
    (submit_twice s disk n0 n1 n2 filename C).2.2.1 =
      Except.ok { job_id := 1, status := JobStatus.completed,
                  message := "File already scanned, instant results from cache",
                  deduplication := true, results := some (scan_file C) } ∧
    (submit_twice s disk n0 n1 n2 filename C).2.2.2.2 =
      [Effect.storageSave (sha256hex C), Effect.cacheResultsLookup (sha256hex C),
       Effect.dbCreateJob 1 JobStatus.completed] ∧
    (submit_twice s disk n0 n1 n2 filename C).2.2.2.1.queue =
      (submit_twice s disk n0 n1 n2 filename C).1.2.1.queue := by
  simp [submit_twice, upload_file, hname, hgate, hsize, emptyState,
    calculate_hash_and_save, storage_contains, get_file_results,
    get_completed_job_by_hash, upload_dedup_db, upload_create_pending, create_job,
    set_job_status, publish_job, results_json, process_message, storage_read,
    worker_update_job_status, update_row, cache_results, set_file_results,
    scan_file_isEmpty, get_job, dummyMsg, msg0, doneJob0]

/-- C1 witness: the concrete content "hi" under default settings, with the
admission gate accepting (fail-open on a stats error). -/
theorem c1_submit_twice_witness :
    ¬ ("f.txt" : String) = "" ∧
    (should_accept_upload defaultSettings (Except.error "statfs failed")).1 = true ∧
    ¬ defaultSettings.max_upload_size < (strBytes "hi").length ∧
    (submit_twice defaultSettings (Except.error "statfs failed") 0 1 2 "f.txt"
        (strBytes "hi")).2.2.1 =
      Except.ok { job_id := 1, status := JobStatus.completed,
                  message := "File already scanned, instant results from cache",
                  deduplication := true,
                  results := some (scan_file (strBytes "hi")) } := by
  refine ⟨by decide, rfl, by decide, ?_⟩
  exact (c1_submit_twice_dedup defaultSettings (Except.error "statfs failed") 0 1 2
    "f.txt" (strBytes "hi") (by decide) rfl (by decide)).2.2.2.2.1

end FileScanner
